import Mathlib

/-!
Sprite-sheet animation (`spr1.c`).

A shallow embedding of the sprite-sheet indexing and frame-advance logic of
`spr1.c`, and the properties of it that the specification states.

Conventions of the embedding.

* A C `int` is an `Int`; the result of every `int` addition and multiplication
  is reduced to the 32-bit two's complement range by `wrapInt32`.  An
  `unsigned int` is an `Int` between 0 and `2 ^ 32 - 1`; conversions to it and
  its results are reduced modulo `2 ^ 32` by `wrapUInt32`.
* The C `%` operator on `int` is `cMod`: it has no result on a zero divisor and
  is the truncated remainder otherwise.
* The enumerated type `SlimePose` has no negative enumerator and is represented
  by `unsigned int`, as GCC and Clang do.  In the row expression of
  `SpriteDraw` the product `id * END_POSE` is therefore an `int` product, while
  the sum with `pose`, the remainder by `yCellCount` and the product with
  `cellH` are `unsigned int` operations on converted operands.
* A C `float` is a value of a type `F` that comes with the operations the
  program uses (`FloatOps`).  Nothing is assumed about these operations, so a
  statement proved for every `FloatOps` holds in particular for IEEE single
  precision.  `binary32` interprets them on rationals with the rounding of
  IEEE single precision, `exactFloat` as exact arithmetic on rationals.
* The calls into raylib are parameters: `LoadTexture` is a function from file
  names to texture handles, `GetFrameTime ()` is the argument `dt`, and
  `DrawTexturePro` appends its arguments to a list of recorded draw calls.
-/

namespace Spr1

/-! ## Machine arithmetic -/

/-- Largest value of a 32-bit `int`. -/
def INT_MAX : Int := 2147483647

/-- Smallest value of a 32-bit `int`. -/
def INT_MIN : Int := -2147483648

/-- Reduction of an integer to the 32-bit two's complement range. -/
def wrapInt32 (x : Int) : Int := (x + 2147483648) % 4294967296 - 2147483648

/-- Conversion of an integer to `unsigned int`, and reduction of the result of
an `unsigned int` operation: the value modulo `2 ^ 32`. -/
def wrapUInt32 (x : Int) : Int := x % 4294967296

/-- The C remainder `a % b` of an `unsigned int` `a` by an `int` `b`, which C
converts to `unsigned int` first: undefined when `b` is zero (the converted
value of an `int` is zero only then), otherwise the remainder by the converted
divisor. -/
def cModU (a b : Int) : Option Int :=
  if b = 0 then none else some (a % wrapUInt32 b)

/-- The C remainder `a % b` on `int`: undefined on a zero divisor, otherwise
the remainder of the division that truncates towards zero (so the remainder of
`INT_MIN` by `-1`, whose quotient overflows, is 0). -/
def cMod (a b : Int) : Option Int :=
  if b = 0 then none else some (Int.tmod a b)

/-- The operations on C `float` values that the program uses: conversion from
an integer (`int` or `unsigned int`), addition, subtraction, multiplication and
the comparison `>=`. -/
structure FloatOps (F : Type) where
  ofInt : Int → F
  add : F → F → F
  sub : F → F → F
  mul : F → F → F
  ge : F → F → Bool

/-- Exact arithmetic on rationals, as an interpretation of `float`. -/
def exactFloat : FloatOps ℚ where
  ofInt := fun i => (i : ℚ)
  add := fun a b => a + b
  sub := fun a b => a - b
  mul := fun a b => a * b
  ge := fun a b => decide (b ≤ a)

/-- Rounding of a rational to the nearest integer, a tie to the even one. -/
def roundHalfEven (x : ℚ) : Int :=
  if x - ⌊x⌋ < 1 / 2 then ⌊x⌋
  else if 1 / 2 < x - ⌊x⌋ then ⌊x⌋ + 1
  else if ⌊x⌋ % 2 = 0 then ⌊x⌋
  else ⌊x⌋ + 1

/-- Rounding of a rational to IEEE single precision, to nearest with ties to
even: a significand of 24 bits at the exponent of the leading bit, which is at
least -126 (subnormal numbers).  Results beyond the largest finite `float` are
not replaced by an infinity. -/
def roundBinary32 (q : ℚ) : ℚ :=
  if q = 0 then 0
  else
    (roundHalfEven (q / 2 ^ (max (Int.log 2 |q|) (-126) - 23)) : ℚ)
      * 2 ^ (max (Int.log 2 |q|) (-126) - 23)

/-- IEEE single precision arithmetic on finite values, as an interpretation of
`float`: every operation is the exact one followed by `roundBinary32`. -/
def binary32 : FloatOps ℚ where
  ofInt := fun i => roundBinary32 (i : ℚ)
  add := fun a b => roundBinary32 (a + b)
  sub := fun a b => roundBinary32 (a - b)
  mul := fun a b => roundBinary32 (a * b)
  ge := fun a b => decide (b ≤ a)

/-! ## Data model -/

/-- The raylib texture handle `Texture2D`: `id` is an `unsigned int`, the other
fields are `int`.  A handle with `id = 0` is invalid. -/
structure Texture2D where
  id : Nat
  width : Int
  height : Int
  mipmaps : Int
  format : Int
  deriving DecidableEq, Repr

/-- The struct `AnimFrame`. -/
structure AnimFrame where
  tex : Texture2D
  cellW : Int
  cellH : Int
  centerW : Int
  centerH : Int
  xCellCount : Int
  yCellCount : Int
  deriving DecidableEq, Repr

/-- The enum `SlimePose`. -/
inductive SlimePose where
  | IDLE
  | MOVE
  | END_POSE
  deriving DecidableEq, Repr

/-- The integer value of a `SlimePose` enumerator. -/
def SlimePose.toInt : SlimePose → Int
  | .IDLE => 0
  | .MOVE => 1
  | .END_POSE => 2

/-- The raylib struct `Vector2`. -/
structure Vector2 (F : Type) where
  x : F
  y : F
  deriving DecidableEq, Repr

/-- The raylib struct `Rectangle`. -/
structure Rectangle (F : Type) where
  x : F
  y : F
  width : F
  height : F
  deriving DecidableEq, Repr

/-- The raylib colours the program draws with. -/
inductive Color where
  | WHITE
  deriving DecidableEq, Repr

/-- The struct `Sprite`. -/
structure Sprite (F : Type) where
  id : Int
  af : AnimFrame
  pose : SlimePose
  frame_counter : Int
  curr_frame : Int
  next_frame_time : F
  frame_time : F
  animate : Bool
  centor_cord : Bool
  deriving DecidableEq, Repr

/-- The arguments of one call of raylib's `DrawTexturePro`. -/
structure DrawCall (F : Type) where
  texture : Texture2D
  source : Rectangle F
  dest : Rectangle F
  origin : Vector2 F
  rotation : F
  tint : Color
  deriving DecidableEq, Repr

/-! ## Operations -/

/-- The function `AnimFrameLoad`.  `LoadTexture` is raylib's loader; the cell
sizes are `uint16_t` values. -/
def AnimFrameLoad (LoadTexture : String → Texture2D) (fname : String)
    (cell_width cell_height : Fin 65536) : AnimFrame :=
  let a : AnimFrame := ⟨⟨0, 0, 0, 0, 0⟩, 0, 0, 0, 0, 0, 0⟩
  let a := { a with tex := LoadTexture fname }
  if a.tex.id = 0 then
    a
  else if cell_width.val = 0 ∨ cell_height.val = 0 then
    let a := { a with cellW := 0 }
    { a with cellH := 0 }
  else
    let a := { a with cellW := (cell_width.val : Int) }
    let a := { a with centerW := a.cellW >>> (1 : Nat) }
    let a := { a with cellH := (cell_height.val : Int) }
    let a := { a with centerH := a.cellH >>> (1 : Nat) }
    let a := { a with xCellCount := Int.tdiv a.tex.width a.cellW }
    { a with yCellCount := Int.tdiv a.tex.height a.cellH }

/-- The function `SpriteLoad`. -/
def SpriteLoad {F : Type} (s : Sprite F) (af : AnimFrame) : Sprite F :=
  { s with af := af }

/-- The function `SpriteUpdate`; `dt` is the value `GetFrameTime ()` returns. -/
def SpriteUpdate {F : Type} (fl : FloatOps F) (dt : F) (s : Sprite F) : Sprite F :=
  if s.animate then
    let s := { s with frame_time := fl.add s.frame_time dt }
    if fl.ge s.frame_time s.next_frame_time then
      let s := { s with frame_time := fl.ofInt 0 }
      let s := { s with curr_frame := wrapInt32 (s.curr_frame + 1) }
      if s.curr_frame ≥ wrapInt32 (s.af.xCellCount * s.af.yCellCount) then
        { s with curr_frame := 0 }
      else
        s
    else
      s
  else
    s

/-- A sequence of `SpriteUpdate` ticks, one for each elapsed time of `dts`. -/
def SpriteUpdates {F : Type} (fl : FloatOps F) (dts : List F) (s : Sprite F) : Sprite F :=
  dts.foldl (fun s dt => SpriteUpdate fl dt s) s

/-- The function `SpriteDraw`.  `calls` is the list of draw calls recorded so
far; the result is `none` when a `%` has a zero divisor.  The row expression
`(id * END_POSE + pose) % yCellCount * cellH` is an `unsigned int` from the sum
on, `pose` being of the enumerated type. -/
def SpriteDraw {F : Type} (fl : FloatOps F) (s : Sprite F) (position : Vector2 F)
    (calls : List (DrawCall F)) : Option (List (DrawCall F)) :=
  if s.af.tex.id > 0 then do
    let row ← cModU
      (wrapUInt32 (wrapUInt32 (wrapInt32 (s.id * SlimePose.END_POSE.toInt)) + s.pose.toInt))
      s.af.yCellCount
    let pose_frame := fl.ofInt (wrapUInt32 (row * wrapUInt32 s.af.cellH))
    let col ← cMod s.curr_frame s.af.xCellCount
    let sourceRec : Rectangle F :=
      ⟨fl.mul (fl.ofInt col) (fl.ofInt s.af.cellW), pose_frame,
        fl.ofInt s.af.cellW, fl.ofInt s.af.cellH⟩
    let destRec : Rectangle F :=
      ⟨position.x, position.y, fl.ofInt s.af.cellW, fl.ofInt s.af.cellH⟩
    let origin : Vector2 F := ⟨fl.ofInt 0, fl.ofInt 0⟩
    if s.centor_cord then
      let origin : Vector2 F := ⟨fl.ofInt s.af.centerW, fl.ofInt s.af.centerH⟩
      let destRec := { destRec with x := fl.sub position.x (fl.ofInt s.af.centerW) }
      let destRec := { destRec with y := fl.sub position.y (fl.ofInt s.af.centerH) }
      some (calls ++ [⟨s.af.tex, sourceRec, destRec, origin, fl.ofInt 0, Color.WHITE⟩])
    else
      some (calls ++ [⟨s.af.tex, sourceRec, destRec, origin, fl.ofInt 0, Color.WHITE⟩])
  else
    some calls

/-! ## Sample inputs -/

/-- A valid texture handle of 72 x 196 pixels: 6 x 14 cells of 12 x 14 pixels. -/
def slimeTexture : Texture2D := ⟨1, 72, 196, 1, 7⟩

/-- A texture loader that succeeds on every file name with `slimeTexture`. -/
def slimeLoader : String → Texture2D := fun _ => slimeTexture

/-- A texture loader that fails on every file name: the handle has `id = 0`. -/
def failingLoader : String → Texture2D := fun _ => ⟨0, 0, 0, 0, 0⟩

/-- The grid `AnimFrameLoad` computes for `slimeTexture` and 12 x 14 cells. -/
def slimeAF : AnimFrame := ⟨slimeTexture, 12, 14, 6, 7, 6, 14⟩

/-- A valid texture handle of 8 x 8 pixels, smaller than a cell of 12 x 14. -/
def tinyTexture : Texture2D := ⟨1, 8, 8, 1, 7⟩

/-- A texture loader that succeeds on every file name with `tinyTexture`. -/
def tinyLoader : String → Texture2D := fun _ => tinyTexture

/-- A valid texture handle of 16777220 x 14 pixels. -/
def wideTexture : Texture2D := ⟨1, 16777220, 14, 1, 7⟩

/-- A texture loader that succeeds on every file name with `wideTexture`. -/
def wideLoader : String → Texture2D := fun _ => wideTexture

/-- A valid texture handle of 14 x 16777220 pixels. -/
def tallTexture : Texture2D := ⟨1, 14, 16777220, 1, 7⟩

/-- A texture loader that succeeds on every file name with `tallTexture`. -/
def tallLoader : String → Texture2D := fun _ => tallTexture

/-- An entry of the array `Slime` as its initialiser leaves it: the given
`id`, pose `IDLE`, frame 0, no time accumulated, animation and centred drawing
enabled, and an `AnimFrame` of zeros.  The time per frame, `1.0f / 16.0f` in
the source, is a parameter. -/
def newSprite {F : Type} (fl : FloatOps F) (id : Int) (next_frame_time : F) : Sprite F :=
  ⟨id, ⟨⟨0, 0, 0, 0, 0⟩, 0, 0, 0, 0, 0, 0⟩, SlimePose.IDLE, 16, 0, next_frame_time,
    fl.ofInt 0, true, true⟩

/-! ## Machine arithmetic: basic facts -/

/-- A value within the `int` range is its own reduction. -/
theorem wrapInt32_of_inRange (x : Int) (hlo : INT_MIN ≤ x) (hhi : x ≤ INT_MAX) :
    wrapInt32 x = x := by
  unfold INT_MIN at hlo
  unfold INT_MAX at hhi
  unfold wrapInt32
  omega

/-- A reduced value is at most `INT_MAX`. -/
theorem wrapInt32_le_max (x : Int) : wrapInt32 x ≤ INT_MAX := by
  unfold wrapInt32 INT_MAX
  omega

/-! ## Rounding to single precision: basic facts -/

/-- An integer is its own rounding to the nearest integer. -/
theorem roundHalfEven_intCast (m : Int) : roundHalfEven (m : ℚ) = m := by
  simp [roundHalfEven]

/-- A rational that is a whole number of units in the last place is a
`float`. -/
theorem roundBinary32_of_quot_int (q : ℚ) (m : Int)
    (h : q / 2 ^ (max (Int.log 2 |q|) (-126) - 23) = m) : roundBinary32 q = q := by
  unfold roundBinary32
  split
  · next h0 => exact h0.symm
  · rw [h, roundHalfEven_intCast, ← h]
    have : (2 : ℚ) ^ (max (Int.log 2 |q|) (-126) - 23) ≠ 0 := zpow_ne_zero _ (by norm_num)
    field_simp

/-- Every integer from 0 to `2 ^ 24` is a `float`. -/
theorem roundBinary32_intCast (n : Int) (h0 : 0 ≤ n) (h1 : n ≤ 16777216) :
    roundBinary32 (n : ℚ) = n := by
  rcases eq_or_lt_of_le h0 with h | hpos
  · subst h; simp [roundBinary32]
  rcases eq_or_lt_of_le h1 with h | hlt
  · subst h
    have hl : Int.log 2 |((16777216 : Int) : ℚ)| = 24 := by
      have : |((16777216 : Int) : ℚ)| = ((2 : ℕ) : ℚ) ^ (24 : ℤ) := by norm_num
      rw [this, Int.log_zpow (by norm_num)]
    apply roundBinary32_of_quot_int _ 8388608
    rw [hl]; norm_num
  · have hq : (0 : ℚ) < |(n : ℚ)| := by
      rw [abs_pos]; exact_mod_cast hpos.ne'
    have hlog : Int.log 2 |(n : ℚ)| < 24 := by
      rw [← Int.lt_zpow_iff_log_lt (by norm_num) hq]
      rw [abs_of_nonneg (by exact_mod_cast h0)]
      have : (n : ℚ) < 16777216 := by exact_mod_cast hlt
      norm_num
      exact this
    set e := max (Int.log 2 |(n : ℚ)|) (-126) with he
    have he23 : e ≤ 23 := by omega
    obtain ⟨d, hd⟩ : ∃ d : ℕ, (d : ℤ) = 23 - e := ⟨(23 - e).toNat, by omega⟩
    apply roundBinary32_of_quot_int _ (n * 2 ^ d)
    have : e - 23 = -(d : ℤ) := by omega
    rw [this, zpow_neg, zpow_natCast]
    push_cast
    field_simp

/-- The leading bit of a rational from `2 ^ 24` up to `2 ^ 25` has exponent 24. -/
theorem log_abs_of_range (q : ℚ) (h0 : 16777216 ≤ q) (h1 : q < 33554432) :
    Int.log 2 |q| = 24 := by
  have hq : 0 < |q| := by rw [abs_pos]; linarith
  have habs : |q| = q := abs_of_nonneg (by linarith)
  apply le_antisymm
  · have : Int.log 2 |q| < 25 := by
      rw [← Int.lt_zpow_iff_log_lt (by norm_num) hq, habs]
      norm_num
      exact h1
    omega
  · rw [← Int.zpow_le_iff_le_log (by norm_num) hq, habs]
    norm_num
    exact h0

/-- The integer `2 ^ 24 + 1` is rounded down to `2 ^ 24`. -/
theorem roundBinary32_16777217 : roundBinary32 16777217 = 16777216 := by
  have hl := log_abs_of_range 16777217 (by norm_num) (by norm_num)
  have hf : ⌊(16777217 : ℚ) / 2⌋ = 8388608 := by
    rw [Int.floor_eq_iff]; norm_num
  unfold roundBinary32
  rw [hl]
  norm_num [roundHalfEven, hf]

/-- The integer `2 ^ 24 + 3` is rounded up to `2 ^ 24 + 4`. -/
theorem roundBinary32_16777219 : roundBinary32 16777219 = 16777220 := by
  have hl := log_abs_of_range 16777219 (by norm_num) (by norm_num)
  have hf : ⌊(16777219 : ℚ) / 2⌋ = 8388609 := by
    rw [Int.floor_eq_iff]; norm_num
  unfold roundBinary32
  rw [hl]
  norm_num [roundHalfEven, hf]

/-- Every even integer from `2 ^ 24` up to `2 ^ 25` is a `float`. -/
theorem roundBinary32_even (n : Int) (h0 : 16777216 ≤ n) (h1 : n < 33554432) (k : Int)
    (hk : n = 2 * k) : roundBinary32 (n : ℚ) = n := by
  have hl := log_abs_of_range (n : ℚ) (by exact_mod_cast h0) (by exact_mod_cast h1)
  apply roundBinary32_of_quot_int _ k
  rw [hl, hk]
  push_cast
  norm_num

/-- Rounding an integer from 0 to `2 ^ 24 + 2` gives an integer that is not
negative and not above it. -/
theorem roundBinary32_le (n : Int) (h0 : 0 ≤ n) (h1 : n ≤ 16777218) :
    ∃ m : Int, roundBinary32 (n : ℚ) = m ∧ 0 ≤ m ∧ m ≤ n := by
  by_cases h : n ≤ 16777216
  · exact ⟨n, roundBinary32_intCast n h0 h, h0, le_refl n⟩
  · have hc : n = 16777217 ∨ n = 16777218 := by omega
    rcases hc with hc | hc
    · subst hc
      exact ⟨16777216, by exact_mod_cast roundBinary32_16777217, by norm_num, by norm_num⟩
    · subst hc
      have h18 := roundBinary32_even 16777218 (by norm_num) (by norm_num) 8388609
        (by norm_num)
      exact ⟨16777218, by exact_mod_cast h18, by norm_num, by norm_num⟩

/-! ## `AnimFrameLoad` -/

/-- The result of `AnimFrameLoad` on a successful load with non-zero cell
sizes, its divisions written as integer divisions. -/
theorem AnimFrameLoad_of_valid (LoadTexture : String → Texture2D) (fname : String)
    (cell_width cell_height : Fin 65536)
    (hid : (LoadTexture fname).id ≠ 0)
    (hcw : 0 < cell_width.val) (hch : 0 < cell_height.val)
    (hw : 0 ≤ (LoadTexture fname).width) (hh : 0 ≤ (LoadTexture fname).height) :
    AnimFrameLoad LoadTexture fname cell_width cell_height
      = ⟨LoadTexture fname, cell_width.val, cell_height.val,
          (cell_width.val : Int) / 2, (cell_height.val : Int) / 2,
          (LoadTexture fname).width / (cell_width.val : Int),
          (LoadTexture fname).height / (cell_height.val : Int)⟩ := by
  have hcw0 : cell_width.val ≠ 0 := by omega
  have hch0 : cell_height.val ≠ 0 := by omega
  have hcwI : (0 : Int) ≤ (cell_width.val : Int) := by omega
  have hchI : (0 : Int) ≤ (cell_height.val : Int) := by omega
  simp only [AnimFrameLoad, hid, hcw0, hch0, if_false, or_self,
    Int.tdiv_eq_ediv hw hcwI, Int.tdiv_eq_ediv hh hchI]
  have h1 : ((cell_width.val : Int) >>> (1 : Nat)) = (cell_width.val : Int) / 2 := by
    rw [Int.shiftRight_eq_div_pow]; norm_num
  have h2 : ((cell_height.val : Int) >>> (1 : Nat)) = (cell_height.val : Int) / 2 := by
    rw [Int.shiftRight_eq_div_pow]; norm_num
  rw [h1, h2]

/-- C4: after a successful texture load of size `width x height`, and for
non-zero cell sizes, `AnimFrameLoad` returns the loaded handle, the cell sizes
it was given, the floors of their halves as the centre offsets and the floors
of `width / cell_width` and `height / cell_height` as the cell counts; the
grid has at least one cell when the texture is at least as large as a cell. -/
theorem AnimFrameLoad_grid (LoadTexture : String → Texture2D) (fname : String)
    (cell_width cell_height : Fin 65536)
    (hid : (LoadTexture fname).id ≠ 0)
    (hcw : 0 < cell_width.val) (hch : 0 < cell_height.val)
    (hw : 0 ≤ (LoadTexture fname).width) (hh : 0 ≤ (LoadTexture fname).height) :
    AnimFrameLoad LoadTexture fname cell_width cell_height
      = ⟨LoadTexture fname, cell_width.val, cell_height.val,
          ⌊(cell_width.val : ℚ) / 2⌋, ⌊(cell_height.val : ℚ) / 2⌋,
          ⌊((LoadTexture fname).width : ℚ) / (cell_width.val : ℚ)⌋,
          ⌊((LoadTexture fname).height : ℚ) / (cell_height.val : ℚ)⌋⟩ ∧
    ((cell_width.val : Int) ≤ (LoadTexture fname).width →
      (cell_height.val : Int) ≤ (LoadTexture fname).height →
      1 ≤ (AnimFrameLoad LoadTexture fname cell_width cell_height).xCellCount
        * (AnimFrameLoad LoadTexture fname cell_width cell_height).yCellCount) := by
  have e := AnimFrameLoad_of_valid LoadTexture fname cell_width cell_height hid hcw hch hw hh
  have f1 : ⌊(cell_width.val : ℚ) / 2⌋ = (cell_width.val : Int) / 2 :=
    Rat.floor_intCast_div_natCast (cell_width.val : Int) 2
  have f2 : ⌊(cell_height.val : ℚ) / 2⌋ = (cell_height.val : Int) / 2 :=
    Rat.floor_intCast_div_natCast (cell_height.val : Int) 2
  have f3 : ⌊((LoadTexture fname).width : ℚ) / (cell_width.val : ℚ)⌋
      = (LoadTexture fname).width / (cell_width.val : Int) :=
    Rat.floor_intCast_div_natCast _ _
  have f4 : ⌊((LoadTexture fname).height : ℚ) / (cell_height.val : ℚ)⌋
      = (LoadTexture fname).height / (cell_height.val : Int) :=
    Rat.floor_intCast_div_natCast _ _
  rw [e, f1, f2, f3, f4]
  refine ⟨rfl, ?_⟩
  intro h1 h2
  have hx : 1 ≤ (LoadTexture fname).width / (cell_width.val : Int) :=
    Int.le_ediv_of_mul_le (by omega) (by omega)
  have hy : 1 ≤ (LoadTexture fname).height / (cell_height.val : Int) :=
    Int.le_ediv_of_mul_le (by omega) (by omega)
  show 1 ≤ (LoadTexture fname).width / (cell_width.val : Int)
    * ((LoadTexture fname).height / (cell_height.val : Int))
  nlinarith

/-- Witness of C4: the 72 x 196 texture with 12 x 14 cells. -/
theorem AnimFrameLoad_grid_witness :
    (slimeLoader "img/slime.png").id ≠ 0 ∧
    0 < (12 : Fin 65536).val ∧ 0 < (14 : Fin 65536).val ∧
    0 ≤ (slimeLoader "img/slime.png").width ∧ 0 ≤ (slimeLoader "img/slime.png").height ∧
    (AnimFrameLoad slimeLoader "img/slime.png" 12 14
      = ⟨slimeLoader "img/slime.png", (12 : Fin 65536).val, (14 : Fin 65536).val,
          ⌊((12 : Fin 65536).val : ℚ) / 2⌋, ⌊((14 : Fin 65536).val : ℚ) / 2⌋,
          ⌊((slimeLoader "img/slime.png").width : ℚ) / ((12 : Fin 65536).val : ℚ)⌋,
          ⌊((slimeLoader "img/slime.png").height : ℚ) / ((14 : Fin 65536).val : ℚ)⌋⟩ ∧
    (((12 : Fin 65536).val : Int) ≤ (slimeLoader "img/slime.png").width →
      ((14 : Fin 65536).val : Int) ≤ (slimeLoader "img/slime.png").height →
      1 ≤ (AnimFrameLoad slimeLoader "img/slime.png" 12 14).xCellCount
        * (AnimFrameLoad slimeLoader "img/slime.png" 12 14).yCellCount)) :=
  ⟨by decide, by decide, by decide, by decide, by decide,
    AnimFrameLoad_grid slimeLoader "img/slime.png" 12 14
      (by decide) (by decide) (by decide) (by decide) (by decide)⟩

/-- C5: when a cell size is zero, `AnimFrameLoad` returns the handle the
texture loader returned, whether the load succeeded or not, and every grid
field is zero. -/
theorem AnimFrameLoad_zero_cell (LoadTexture : String → Texture2D) (fname : String)
    (cell_width cell_height : Fin 65536)
    (h : cell_width.val = 0 ∨ cell_height.val = 0) :
    AnimFrameLoad LoadTexture fname cell_width cell_height
      = ⟨LoadTexture fname, 0, 0, 0, 0, 0, 0⟩ := by
  unfold AnimFrameLoad
  by_cases hid : (LoadTexture fname).id = 0
  · simp [hid]
  · simp [hid, h]

/-- Witness of C5: a zero cell width, on a load that succeeds. -/
theorem AnimFrameLoad_zero_cell_witness :
    ((0 : Fin 65536).val = 0 ∨ (14 : Fin 65536).val = 0) ∧
    AnimFrameLoad slimeLoader "img/slime.png" 0 14
      = ⟨slimeLoader "img/slime.png", 0, 0, 0, 0, 0, 0⟩ :=
  ⟨Or.inl rfl, AnimFrameLoad_zero_cell slimeLoader "img/slime.png" 0 14 (Or.inl rfl)⟩

/-! ## `SpriteUpdate` -/

/-- A tick on a sprite whose animation is disabled changes nothing. -/
theorem SpriteUpdate_animate_false {F : Type} (fl : FloatOps F) (dt : F) (s : Sprite F)
    (h : s.animate = false) : SpriteUpdate fl dt s = s := by
  simp [SpriteUpdate, h]

/-- C3: a sprite whose animation is disabled is left as it is, in every field,
by every finite sequence of `SpriteUpdate` ticks, whatever the elapsed times. -/
theorem SpriteUpdates_animate_false {F : Type} (fl : FloatOps F) (dts : List F)
    (s : Sprite F) (h : s.animate = false) : SpriteUpdates fl dts s = s := by
  induction dts with
  | nil => rfl
  | cons dt dts ih =>
    show SpriteUpdates fl dts (SpriteUpdate fl dt s) = s
    rw [SpriteUpdate_animate_false fl dt s h]
    exact ih

/-- Witness of C3: three ticks, one of them of ten frame periods, on a sprite
at frame 3 with 1/32 s accumulated. -/
theorem SpriteUpdates_animate_false_witness :
    (⟨2, slimeAF, SlimePose.MOVE, 16, 3, 1 / 16, 1 / 32, false, true⟩ : Sprite ℚ).animate = false ∧
    SpriteUpdates exactFloat [1 / 60, 10 / 16, 1 / 60]
        ⟨2, slimeAF, SlimePose.MOVE, 16, 3, 1 / 16, 1 / 32, false, true⟩
      = ⟨2, slimeAF, SlimePose.MOVE, 16, 3, 1 / 16, 1 / 32, false, true⟩ :=
  ⟨rfl, SpriteUpdates_animate_false exactFloat [1 / 60, 10 / 16, 1 / 60]
    ⟨2, slimeAF, SlimePose.MOVE, 16, 3, 1 / 16, 1 / 32, false, true⟩ rfl⟩

/-- C2, as stated, fails: on a grid of 65536 x 65536 cells the `int` product
`xCellCount * yCellCount` is 0, so a tick that crosses the threshold at frame 5
sets the frame to 0, where `(5 + 1) mod (65536 * 65536)` is 6. -/
theorem SpriteUpdate_advance_counterexample :
    (⟨0, ⟨slimeTexture, 1, 1, 0, 0, 65536, 65536⟩, SlimePose.IDLE, 16, 5, 1 / 10, 0, true, true⟩ :
      Sprite ℚ).animate = true ∧
    (1 : Int) ≤ 65536 * 65536 ∧ (0 : Int) ≤ 5 ∧ (5 : Int) < 65536 * 65536 ∧
    exactFloat.ge (exactFloat.add 0 (1 / 10)) (1 / 10) = true ∧
    (SpriteUpdate exactFloat (1 / 10)
      ⟨0, ⟨slimeTexture, 1, 1, 0, 0, 65536, 65536⟩, SlimePose.IDLE, 16, 5, 1 / 10, 0, true,
        true⟩).curr_frame = 0 ∧
    (SpriteUpdate exactFloat (1 / 10)
      ⟨0, ⟨slimeTexture, 1, 1, 0, 0, 65536, 65536⟩, SlimePose.IDLE, 16, 5, 1 / 10, 0, true,
        true⟩).curr_frame ≠ ((5 : Int) + 1) % (65536 * 65536) := by
  have h : (SpriteUpdate exactFloat (1 / 10)
      ⟨0, ⟨slimeTexture, 1, 1, 0, 0, 65536, 65536⟩, SlimePose.IDLE, 16, 5, 1 / 10, 0, true,
        true⟩).curr_frame = 0 := by
    simp [SpriteUpdate, exactFloat, wrapInt32]
  refine ⟨rfl, by decide, by decide, by decide, ?_, h, ?_⟩
  · simp [exactFloat]
  · rw [h]
    decide

/-- C2, amended: for a sprite with animation enabled, a cell count
`N = xCellCount * yCellCount` with `1 ≤ N ≤ INT_MAX` and a frame index in
`[0, N)`, a tick whose elapsed time brings the accumulated time to the time
per frame or beyond resets the accumulated time to 0 and sets the frame index
to `(curr_frame + 1) mod N`, whatever the size of the elapsed time; no other
field changes. -/
theorem SpriteUpdate_advance {F : Type} (fl : FloatOps F) (dt : F) (s : Sprite F)
    (hanim : s.animate = true)
    (hN : 1 ≤ s.af.xCellCount * s.af.yCellCount)
    (hmax : s.af.xCellCount * s.af.yCellCount ≤ INT_MAX)
    (h0 : 0 ≤ s.curr_frame)
    (hlt : s.curr_frame < s.af.xCellCount * s.af.yCellCount)
    (hge : fl.ge (fl.add s.frame_time dt) s.next_frame_time = true) :
    SpriteUpdate fl dt s
      = { s with
          frame_time := fl.ofInt 0
          curr_frame := (s.curr_frame + 1) % (s.af.xCellCount * s.af.yCellCount) } := by
  have hw1 : wrapInt32 (s.curr_frame + 1) = s.curr_frame + 1 :=
    wrapInt32_of_inRange _ (by unfold INT_MIN; omega) (by omega)
  have hw2 : wrapInt32 (s.af.xCellCount * s.af.yCellCount)
      = s.af.xCellCount * s.af.yCellCount :=
    wrapInt32_of_inRange _ (by unfold INT_MIN; omega) hmax
  simp only [SpriteUpdate, hanim, hge, if_true, hw1, hw2]
  by_cases hc : s.curr_frame + 1 ≥ s.af.xCellCount * s.af.yCellCount
  · have heq : s.curr_frame + 1 = s.af.xCellCount * s.af.yCellCount := by omega
    simp [hc, heq]
  · have hmod : (s.curr_frame + 1) % (s.af.xCellCount * s.af.yCellCount)
        = s.curr_frame + 1 := Int.emod_eq_of_lt (by omega) (by omega)
    simp [hc, hmod]

/-- Witness of C2, amended: 4 x 1 cells, 0.1 s per frame; one tick of a full
second at frame 3 advances by one frame, to frame 0. -/
theorem SpriteUpdate_advance_witness :
    (⟨0, ⟨slimeTexture, 12, 14, 6, 7, 4, 1⟩, SlimePose.IDLE, 16, 3, 1 / 10, 0, true, true⟩ :
      Sprite ℚ).animate = true ∧
    (1 : Int) ≤ 4 * 1 ∧ (4 : Int) * 1 ≤ INT_MAX ∧ (0 : Int) ≤ 3 ∧ (3 : Int) < 4 * 1 ∧
    exactFloat.ge (exactFloat.add 0 1) (1 / 10) = true ∧
    SpriteUpdate exactFloat 1
        ⟨0, ⟨slimeTexture, 12, 14, 6, 7, 4, 1⟩, SlimePose.IDLE, 16, 3, 1 / 10, 0, true, true⟩
      = ⟨0, ⟨slimeTexture, 12, 14, 6, 7, 4, 1⟩, SlimePose.IDLE, 16, (3 + 1) % (4 * 1), 1 / 10,
          exactFloat.ofInt 0, true, true⟩ :=
  ⟨rfl, by decide, by decide, by decide, by decide, by norm_num [exactFloat],
    SpriteUpdate_advance exactFloat 1
      ⟨0, ⟨slimeTexture, 12, 14, 6, 7, 4, 1⟩, SlimePose.IDLE, 16, 3, 1 / 10, 0, true, true⟩
      rfl (by decide) (by decide) (by decide) (by decide) (by norm_num [exactFloat])⟩

/-- The frame-advance example of the specification: 4 x 1 cells, 0.1 s per
frame, ticks of 0.1 s from frame 0 visit the frames 1, 2, 3, 0, 1. -/
theorem SpriteUpdates_wraparound_example :
    (List.range 6).map (fun k =>
        (SpriteUpdates exactFloat (List.replicate k (1 / 10))
          (SpriteLoad (newSprite exactFloat 0 (1 / 10))
            ⟨slimeTexture, 12, 14, 6, 7, 4, 1⟩)).curr_frame)
      = [0, 1, 2, 3, 0, 1] := by
  simp [List.range, List.range.loop, List.replicate, SpriteUpdates, SpriteUpdate, SpriteLoad,
    newSprite, exactFloat, wrapInt32]

/-- C9, as stated, fails: on a grid without cells `SpriteUpdate` still runs the
timer.  From the creation state a tick of 1/60 s leaves 1/60 s accumulated, and
a tick that crosses the threshold resets 1/32 s accumulated to 0. -/
theorem SpriteUpdate_zero_grid_counterexample :
    (AnimFrameLoad slimeLoader "img/slime.png" 0 14).xCellCount
      * (AnimFrameLoad slimeLoader "img/slime.png" 0 14).yCellCount = 0 ∧
    (SpriteUpdate exactFloat (1 / 60)
      (SpriteLoad (newSprite exactFloat 0 (1 / 16))
        (AnimFrameLoad slimeLoader "img/slime.png" 0 14))).frame_time
      ≠ (SpriteLoad (newSprite exactFloat 0 (1 / 16))
        (AnimFrameLoad slimeLoader "img/slime.png" 0 14)).frame_time ∧
    (SpriteUpdate exactFloat (1 / 16)
      ⟨0, AnimFrameLoad slimeLoader "img/slime.png" 0 14, SlimePose.IDLE, 16, 0, 1 / 16, 1 / 32,
        true, true⟩).frame_time ≠ 1 / 32 := by
  refine ⟨by decide, ?_, ?_⟩
  · simp [SpriteUpdate, SpriteLoad, newSprite, exactFloat]
    norm_num
  · have hN : (AnimFrameLoad slimeLoader "img/slime.png" 0 14).xCellCount
        * (AnimFrameLoad slimeLoader "img/slime.png" 0 14).yCellCount = 0 := by decide
    have hw1 : wrapInt32 1 = 1 := by decide
    have hw2 : wrapInt32 0 = 0 := by decide
    simp [SpriteUpdate, exactFloat, hN, hw1, hw2]

/-- C9, amended: on a grid without cells (`xCellCount * yCellCount = 0`) and at
frame 0, the creation default, `SpriteUpdate` changes no field other than the
accumulated time, for every elapsed time: the frame index stays 0 also when the
threshold is crossed.  The accumulated time follows the timer as on any grid:
unchanged while animation is disabled, increased by the elapsed time below the
threshold and reset to 0 once the threshold is reached. -/
theorem SpriteUpdate_zero_grid {F : Type} (fl : FloatOps F) (dt : F) (s : Sprite F)
    (hN : s.af.xCellCount * s.af.yCellCount = 0) (h0 : s.curr_frame = 0) :
    SpriteUpdate fl dt s
      = { s with
          frame_time :=
            if s.animate then
              if fl.ge (fl.add s.frame_time dt) s.next_frame_time then fl.ofInt 0
              else fl.add s.frame_time dt
            else s.frame_time } := by
  have hw1 : wrapInt32 1 = 1 := by decide
  have hw2 : wrapInt32 0 = 0 := by decide
  obtain ⟨id, af, pose, fc, cf, nft, ft, an, cc⟩ := s
  simp only at hN h0
  subst h0
  cases an
  · simp [SpriteUpdate]
  · by_cases hg : fl.ge (fl.add ft dt) nft = true
    · simp [SpriteUpdate, hg, hN, hw1, hw2]
    · simp [SpriteUpdate, hg]

/-- Witness of C9, amended: the creation state bound to the grid that
`AnimFrameLoad` returns for a zero cell width, one tick that reaches the
threshold. -/
theorem SpriteUpdate_zero_grid_witness :
    (SpriteLoad (newSprite exactFloat 0 (1 / 16))
        (AnimFrameLoad slimeLoader "img/slime.png" 0 14)).af.xCellCount
      * (SpriteLoad (newSprite exactFloat 0 (1 / 16))
        (AnimFrameLoad slimeLoader "img/slime.png" 0 14)).af.yCellCount = 0 ∧
    (SpriteLoad (newSprite exactFloat 0 (1 / 16))
        (AnimFrameLoad slimeLoader "img/slime.png" 0 14)).curr_frame = 0 ∧
    (SpriteUpdate exactFloat (1 / 16)
        (SpriteLoad (newSprite exactFloat 0 (1 / 16))
          (AnimFrameLoad slimeLoader "img/slime.png" 0 14))).curr_frame = 0 := by
  have h := SpriteUpdate_zero_grid exactFloat (1 / 16)
    (SpriteLoad (newSprite exactFloat 0 (1 / 16))
      (AnimFrameLoad slimeLoader "img/slime.png" 0 14)) (by decide) rfl
  exact ⟨by decide, rfl, by rw [h]; rfl⟩

/-- The effect of one tick on the frame index: it stays, or it becomes 0 when
the incremented index reaches the `int` product of the cell counts, or it
becomes the incremented index, which is then below that product. -/
theorem SpriteUpdate_frame_cases {F : Type} (fl : FloatOps F) (dt : F) (s : Sprite F) :
    (SpriteUpdate fl dt s).af = s.af ∧
    ((SpriteUpdate fl dt s).curr_frame = s.curr_frame ∨
      (SpriteUpdate fl dt s).curr_frame = 0 ∨
      ((SpriteUpdate fl dt s).curr_frame = wrapInt32 (s.curr_frame + 1) ∧
        wrapInt32 (s.curr_frame + 1) < wrapInt32 (s.af.xCellCount * s.af.yCellCount))) := by
  unfold SpriteUpdate
  by_cases ha : s.animate = true
  · by_cases hg : fl.ge (fl.add s.frame_time dt) s.next_frame_time = true
    · by_cases hc : wrapInt32 (s.curr_frame + 1)
          ≥ wrapInt32 (s.af.xCellCount * s.af.yCellCount)
      · simp [ha, hg, hc]
      · have hlt : wrapInt32 (s.curr_frame + 1)
            < wrapInt32 (s.af.xCellCount * s.af.yCellCount) := by omega
        simp [ha, hg, hc, hlt]
    · simp [ha, hg]
  · simp [ha]

/-- A frame index that is not negative and is 0 or below the `int` product of
the cell counts is so again after one tick. -/
theorem SpriteUpdate_frame_bound {F : Type} (fl : FloatOps F) (dt : F) (s : Sprite F)
    (h0 : 0 ≤ s.curr_frame)
    (h1 : s.curr_frame = 0 ∨
      s.curr_frame < wrapInt32 (s.af.xCellCount * s.af.yCellCount)) :
    (SpriteUpdate fl dt s).af = s.af ∧ 0 ≤ (SpriteUpdate fl dt s).curr_frame ∧
    ((SpriteUpdate fl dt s).curr_frame = 0 ∨
      (SpriteUpdate fl dt s).curr_frame < wrapInt32 (s.af.xCellCount * s.af.yCellCount)) := by
  obtain ⟨haf, hcases⟩ := SpriteUpdate_frame_cases fl dt s
  have hP := wrapInt32_le_max (s.af.xCellCount * s.af.yCellCount)
  generalize wrapInt32 (s.af.xCellCount * s.af.yCellCount) = P at h1 hP hcases ⊢
  generalize (SpriteUpdate fl dt s).curr_frame = c at hcases ⊢
  refine ⟨haf, ?_⟩
  by_cases hz : s.curr_frame = 0
  · have hw : wrapInt32 (s.curr_frame + 1) = 1 := by rw [hz]; decide
    rw [hw] at hcases
    omega
  · have hw : wrapInt32 (s.curr_frame + 1) = s.curr_frame + 1 := by
      apply wrapInt32_of_inRange
      · unfold INT_MIN; omega
      · unfold INT_MAX at hP ⊢
        omega
    rw [hw] at hcases
    omega

/-- A frame index that is not negative and is 0 or below the `int` product of
the cell counts is so again after every sequence of ticks. -/
theorem SpriteUpdates_frame_bound {F : Type} (fl : FloatOps F) (dts : List F) (s : Sprite F)
    (h0 : 0 ≤ s.curr_frame)
    (h1 : s.curr_frame = 0 ∨
      s.curr_frame < wrapInt32 (s.af.xCellCount * s.af.yCellCount)) :
    (SpriteUpdates fl dts s).af = s.af ∧ 0 ≤ (SpriteUpdates fl dts s).curr_frame ∧
    ((SpriteUpdates fl dts s).curr_frame = 0 ∨
      (SpriteUpdates fl dts s).curr_frame < wrapInt32 (s.af.xCellCount * s.af.yCellCount)) := by
  induction dts generalizing s with
  | nil => exact ⟨rfl, h0, h1⟩
  | cons dt dts ih =>
    obtain ⟨ha, hb, hc⟩ := SpriteUpdate_frame_bound fl dt s h0 h1
    have h := ih (SpriteUpdate fl dt s) hb (by rw [ha]; exact hc)
    rw [ha] at h
    exact h

/-- The reduction of a positive value does not exceed it. -/
theorem wrapInt32_le_self (n : Int) (hn : 1 ≤ n) : wrapInt32 n ≤ n := by
  unfold wrapInt32
  omega

/-- C7, as stated, fails: a texture of 8 x 8 pixels loaded with cells of
12 x 14 gives non-zero cell sizes and 0 x 0 cells, so that the frame index,
0 before and after a tick, is not below `xCellCount * yCellCount = 0`. -/
theorem SpriteUpdates_frame_range_counterexample :
    (AnimFrameLoad tinyLoader "img/slime.png" 12 14).cellW ≠ 0 ∧
    (AnimFrameLoad tinyLoader "img/slime.png" 12 14).cellH ≠ 0 ∧
    (newSprite exactFloat 0 (1 / 16)).curr_frame = 0 ∧
    ¬ ((SpriteUpdates exactFloat [1 / 16]
        (SpriteLoad (newSprite exactFloat 0 (1 / 16))
          (AnimFrameLoad tinyLoader "img/slime.png" 12 14))).curr_frame
      < (AnimFrameLoad tinyLoader "img/slime.png" 12 14).xCellCount
        * (AnimFrameLoad tinyLoader "img/slime.png" 12 14).yCellCount) := by
  have hN : (AnimFrameLoad tinyLoader "img/slime.png" 12 14).xCellCount
      * (AnimFrameLoad tinyLoader "img/slime.png" 12 14).yCellCount = 0 := by decide
  have hw1 : wrapInt32 1 = 1 := by decide
  have hw2 : wrapInt32 0 = 0 := by decide
  refine ⟨by decide, by decide, rfl, ?_⟩
  rw [hN]
  simp [SpriteUpdates, SpriteUpdate, SpriteLoad, newSprite, exactFloat, hN, hw1, hw2]

/-- C7, amended: a sprite at frame 0 that is bound to an `AnimFrame` with at
least one cell (`xCellCount * yCellCount ≥ 1`) has, after every sequence of
`SpriteUpdate` ticks with any elapsed times, a frame index in
`[0, xCellCount * yCellCount)`. -/
theorem SpriteUpdates_frame_range {F : Type} (fl : FloatOps F) (dts : List F) (s : Sprite F)
    (af : AnimFrame) (h0 : s.curr_frame = 0) (hN : 1 ≤ af.xCellCount * af.yCellCount) :
    0 ≤ (SpriteUpdates fl dts (SpriteLoad s af)).curr_frame ∧
    (SpriteUpdates fl dts (SpriteLoad s af)).curr_frame < af.xCellCount * af.yCellCount := by
  have hs0 : (SpriteLoad s af).curr_frame = 0 := h0
  obtain ⟨_, hb, hc⟩ := SpriteUpdates_frame_bound fl dts (SpriteLoad s af)
    (by rw [hs0]) (Or.inl hs0)
  refine ⟨hb, ?_⟩
  have haf : (SpriteLoad s af).af = af := rfl
  rw [haf] at hc
  have hle := wrapInt32_le_self _ hN
  rcases hc with hc | hc <;> omega

/-- Witness of C7, amended: the creation state bound to the 6 x 14 grid, three
ticks of which the last is of two seconds. -/
theorem SpriteUpdates_frame_range_witness :
    (newSprite exactFloat 0 (1 / 16)).curr_frame = 0 ∧
    1 ≤ slimeAF.xCellCount * slimeAF.yCellCount ∧
    0 ≤ (SpriteUpdates exactFloat [1 / 16, 1 / 60, 2]
      (SpriteLoad (newSprite exactFloat 0 (1 / 16)) slimeAF)).curr_frame ∧
    (SpriteUpdates exactFloat [1 / 16, 1 / 60, 2]
      (SpriteLoad (newSprite exactFloat 0 (1 / 16)) slimeAF)).curr_frame
      < slimeAF.xCellCount * slimeAF.yCellCount :=
  ⟨rfl, by decide,
    SpriteUpdates_frame_range exactFloat [1 / 16, 1 / 60, 2] (newSprite exactFloat 0 (1 / 16))
      slimeAF rfl (by decide)⟩

/-! ## `SpriteDraw` -/

/-- The draw call of `SpriteDraw` on a valid texture with non-zero cell counts. -/
theorem SpriteDraw_valid {F : Type} (fl : FloatOps F) (s : Sprite F) (position : Vector2 F)
    (calls : List (DrawCall F)) (hid : s.af.tex.id ≠ 0)
    (hx : s.af.xCellCount ≠ 0) (hy : s.af.yCellCount ≠ 0) :
    SpriteDraw fl s position calls
      = some (calls ++ [⟨s.af.tex,
          ⟨fl.mul (fl.ofInt (Int.tmod s.curr_frame s.af.xCellCount)) (fl.ofInt s.af.cellW),
            fl.ofInt (wrapUInt32
              (wrapUInt32 (wrapUInt32 (wrapInt32 (s.id * 2)) + s.pose.toInt)
                  % wrapUInt32 s.af.yCellCount
                * wrapUInt32 s.af.cellH)),
            fl.ofInt s.af.cellW, fl.ofInt s.af.cellH⟩,
          ⟨if s.centor_cord then fl.sub position.x (fl.ofInt s.af.centerW) else position.x,
            if s.centor_cord then fl.sub position.y (fl.ofInt s.af.centerH) else position.y,
            fl.ofInt s.af.cellW, fl.ofInt s.af.cellH⟩,
          if s.centor_cord then ⟨fl.ofInt s.af.centerW, fl.ofInt s.af.centerH⟩
          else ⟨fl.ofInt 0, fl.ofInt 0⟩,
          fl.ofInt 0, Color.WHITE⟩]) := by
  have hpos : s.af.tex.id > 0 := Nat.pos_of_ne_zero hid
  cases hcc : s.centor_cord <;>
    simp [SpriteDraw, cMod, cModU, hpos, hx, hy, hcc, SlimePose.toInt]

/-- C8: on an invalid texture handle (`id = 0`) `SpriteDraw` leaves the list of
recorded draw calls as it is; on a valid handle with non-zero column and row
counts it appends exactly one draw call. -/
theorem SpriteDraw_call_count {F : Type} (fl : FloatOps F) (s : Sprite F)
    (position : Vector2 F) (calls : List (DrawCall F)) :
    (s.af.tex.id = 0 → SpriteDraw fl s position calls = some calls) ∧
    (s.af.tex.id ≠ 0 → s.af.xCellCount ≠ 0 → s.af.yCellCount ≠ 0 →
      ∃ call, SpriteDraw fl s position calls = some (calls ++ [call])) := by
  constructor
  · intro h
    simp [SpriteDraw, h]
  · intro hid hx hy
    exact ⟨_, SpriteDraw_valid fl s position calls hid hx hy⟩

/-- Witness of C8: a sprite on the handle of a failed load draws nothing, a
sprite on the 6 x 14 grid draws once. -/
theorem SpriteDraw_call_count_witness :
    (SpriteLoad (newSprite exactFloat 0 (1 / 16))
      (AnimFrameLoad failingLoader "img/slime.png" 12 14)).af.tex.id = 0 ∧
    SpriteDraw exactFloat (SpriteLoad (newSprite exactFloat 0 (1 / 16))
      (AnimFrameLoad failingLoader "img/slime.png" 12 14)) ⟨100, 200⟩ [] = some [] ∧
    (SpriteLoad (newSprite exactFloat 0 (1 / 16)) slimeAF).af.tex.id ≠ 0 ∧
    (SpriteLoad (newSprite exactFloat 0 (1 / 16)) slimeAF).af.xCellCount ≠ 0 ∧
    (SpriteLoad (newSprite exactFloat 0 (1 / 16)) slimeAF).af.yCellCount ≠ 0 ∧
    (∃ call, SpriteDraw exactFloat (SpriteLoad (newSprite exactFloat 0 (1 / 16)) slimeAF)
      ⟨100, 200⟩ [] = some ([] ++ [call])) :=
  ⟨by decide,
    (SpriteDraw_call_count exactFloat (SpriteLoad (newSprite exactFloat 0 (1 / 16))
      (AnimFrameLoad failingLoader "img/slime.png" 12 14)) ⟨100, 200⟩ []).1 (by decide),
    by decide, by decide, by decide,
    (SpriteDraw_call_count exactFloat (SpriteLoad (newSprite exactFloat 0 (1 / 16)) slimeAF)
      ⟨100, 200⟩ []).2 (by decide) (by decide) (by decide)⟩

/-- C6: on a valid texture with non-zero column and row counts, the one draw
call of `SpriteDraw` has a destination of the cell size and rotation 0; with
centred drawing its top-left corner is the position minus the centre offsets
and the origin is the centre offsets, otherwise its top-left corner is the
position and the origin is `(0, 0)`. -/
theorem SpriteDraw_dest {F : Type} (fl : FloatOps F) (s : Sprite F) (position : Vector2 F)
    (calls : List (DrawCall F)) (hid : s.af.tex.id ≠ 0)
    (hx : s.af.xCellCount ≠ 0) (hy : s.af.yCellCount ≠ 0) :
    ∃ call, SpriteDraw fl s position calls = some (calls ++ [call]) ∧
      call.dest.width = fl.ofInt s.af.cellW ∧ call.dest.height = fl.ofInt s.af.cellH ∧
      call.rotation = fl.ofInt 0 ∧
      (s.centor_cord = true →
        call.dest.x = fl.sub position.x (fl.ofInt s.af.centerW) ∧
        call.dest.y = fl.sub position.y (fl.ofInt s.af.centerH) ∧
        call.origin = ⟨fl.ofInt s.af.centerW, fl.ofInt s.af.centerH⟩) ∧
      (s.centor_cord = false →
        call.dest.x = position.x ∧ call.dest.y = position.y ∧
        call.origin = ⟨fl.ofInt 0, fl.ofInt 0⟩) := by
  refine ⟨_, SpriteDraw_valid fl s position calls hid hx hy, rfl, rfl, rfl, ?_, ?_⟩
  · intro hcc
    simp [hcc]
  · intro hcc
    simp [hcc]

/-- Witness of C6: centre offsets (6, 7) and position (100, 200) give the
top-left corner (94, 193) and the origin (6, 7) with centred drawing, and the
top-left corner (100, 200) and the origin (0, 0) without. -/
theorem SpriteDraw_dest_witness :
    slimeAF.tex.id ≠ 0 ∧ slimeAF.xCellCount ≠ 0 ∧ slimeAF.yCellCount ≠ 0 ∧
    (∃ call, SpriteDraw exactFloat
        ⟨2, slimeAF, SlimePose.MOVE, 16, 5, 1 / 16, 0, true, true⟩ ⟨100, 200⟩ []
          = some ([] ++ [call]) ∧
      call.dest.x = 94 ∧ call.dest.y = 193 ∧ call.origin = ⟨6, 7⟩) ∧
    (∃ call, SpriteDraw exactFloat
        ⟨2, slimeAF, SlimePose.MOVE, 16, 5, 1 / 16, 0, true, false⟩ ⟨100, 200⟩ []
          = some ([] ++ [call]) ∧
      call.dest.x = 100 ∧ call.dest.y = 200 ∧ call.origin = ⟨0, 0⟩) := by
  refine ⟨by decide, by decide, by decide, ?_, ?_⟩
  · obtain ⟨call, h, _, _, _, hc, _⟩ := SpriteDraw_dest exactFloat
      ⟨2, slimeAF, SlimePose.MOVE, 16, 5, 1 / 16, 0, true, true⟩ ⟨100, 200⟩ []
      (by decide) (by decide) (by decide)
    obtain ⟨h1, h2, h3⟩ := hc rfl
    refine ⟨call, h, ?_, ?_, ?_⟩
    · rw [h1]; norm_num [exactFloat, slimeAF]
    · rw [h2]; norm_num [exactFloat, slimeAF]
    · rw [h3]; norm_num [exactFloat, slimeAF]
  · obtain ⟨call, h, _, _, _, _, hc⟩ := SpriteDraw_dest exactFloat
      ⟨2, slimeAF, SlimePose.MOVE, 16, 5, 1 / 16, 0, true, false⟩ ⟨100, 200⟩ []
      (by decide) (by decide) (by decide)
    obtain ⟨h1, h2, h3⟩ := hc rfl
    refine ⟨call, h, h1, h2, ?_⟩
    rw [h3]; norm_num [exactFloat]

/-- The row of `SpriteDraw`: for an `int` `id ≥ 0`, a pose `IDLE` or `MOVE` and
an `int` row count `≥ 1`, the remainder the code computes in `unsigned int` is
`(id * END_POSE + pose) mod yCellCount`. -/
theorem row_umod_eq (id : Int) (pose : SlimePose) (rows : Int)
    (hid0 : 0 ≤ id) (hidmax : id ≤ INT_MAX)
    (hpose : pose = SlimePose.IDLE ∨ pose = SlimePose.MOVE)
    (hrows : 1 ≤ rows) (hrowsmax : rows ≤ INT_MAX) :
    wrapUInt32 (wrapUInt32 (wrapInt32 (id * 2)) + pose.toInt) % wrapUInt32 rows
      = (id * SlimePose.END_POSE.toInt + pose.toInt) % rows := by
  have hp : 0 ≤ pose.toInt ∧ pose.toInt ≤ 1 := by
    rcases hpose with h | h <;> rw [h] <;> decide
  have h1 : wrapUInt32 (wrapUInt32 (wrapInt32 (id * 2)) + pose.toInt)
      = id * 2 + pose.toInt := by
    unfold INT_MAX at hidmax
    unfold wrapUInt32 wrapInt32
    omega
  have h2 : wrapUInt32 rows = rows := by
    unfold INT_MAX at hrowsmax
    unfold wrapUInt32
    omega
  have h3 : SlimePose.END_POSE.toInt = 2 := rfl
  rw [h1, h2, h3]

/-- The row offset of `SpriteDraw`: an `unsigned int` product of a row and a
cell height that are not negative, below `2 ^ 32`, is the exact product. -/
theorem row_offset_eq (row cellH : Int) (hr : 0 ≤ row) (hc : 0 ≤ cellH)
    (hcmax : cellH ≤ INT_MAX) (hp : row * cellH ≤ INT_MAX) :
    wrapUInt32 (row * wrapUInt32 cellH) = row * cellH := by
  have h1 : wrapUInt32 cellH = cellH := by
    unfold INT_MAX at hcmax
    unfold wrapUInt32
    omega
  have h0 : 0 ≤ row * cellH := Int.mul_nonneg hr hc
  rw [h1]
  unfold INT_MAX at hp
  unfold wrapUInt32
  omega

/-- C1, as stated, fails.  `AnimFrameLoad` gives 16777220 x 1 cells of 1 x 14
pixels for a texture of 16777220 x 14 pixels; at frame 16777219 the conversion
`(float) 16777219` is 16777220, so the source rectangle starts at
`x = 16777220`, where `(16777219 mod 16777220) * 1` is 16777219. -/
theorem SpriteDraw_source_counterexample :
    (AnimFrameLoad wideLoader "img/slime.png" 1 14).tex.id ≠ 0 ∧
    1 ≤ (AnimFrameLoad wideLoader "img/slime.png" 1 14).xCellCount ∧
    1 ≤ (AnimFrameLoad wideLoader "img/slime.png" 1 14).yCellCount ∧
    ∃ call,
      SpriteDraw binary32
          ⟨0, AnimFrameLoad wideLoader "img/slime.png" 1 14, SlimePose.IDLE, 16, 16777219,
            1 / 16, 0, true, true⟩ ⟨100, 200⟩ [] = some ([] ++ [call]) ∧
      call.source.x = 16777220 ∧
      call.source.x
        ≠ (((16777219 % (AnimFrameLoad wideLoader "img/slime.png" 1 14).xCellCount)
            * (AnimFrameLoad wideLoader "img/slime.png" 1 14).cellW : Int) : ℚ) := by
  have ha : AnimFrameLoad wideLoader "img/slime.png" 1 14
      = ⟨wideTexture, 1, 14, 0, 7, 16777220, 1⟩ := by decide
  have ht : Int.tmod 16777219 16777220 = 16777219 := by decide
  have h1 : roundBinary32 ((16777219 : Int) : ℚ) = 16777220 := by
    exact_mod_cast roundBinary32_16777219
  have h2 : roundBinary32 ((1 : Int) : ℚ) = 1 := by
    exact_mod_cast roundBinary32_intCast 1 (by norm_num) (by norm_num)
  have h3 : roundBinary32 (16777220 * 1) = 16777220 := by
    have h := roundBinary32_even 16777220 (by norm_num) (by norm_num) 8388610 (by norm_num)
    rw [mul_one]
    exact_mod_cast h
  have hx : binary32.mul (binary32.ofInt (Int.tmod 16777219 16777220)) (binary32.ofInt 1)
      = 16777220 := by
    show roundBinary32 (roundBinary32 ((Int.tmod 16777219 16777220 : Int) : ℚ)
      * roundBinary32 ((1 : Int) : ℚ)) = 16777220
    rw [ht, h1, h2, h3]
  refine ⟨by decide, by decide, by decide, _,
    SpriteDraw_valid binary32 _ _ _ (by decide) (by decide) (by decide), ?_, ?_⟩
  · rw [ha]
    exact hx
  · rw [ha]
    have hv : (((16777219 % (16777220 : Int)) * 1 : Int) : ℚ) = 16777219 := by norm_num
    show binary32.mul (binary32.ofInt (Int.tmod 16777219 16777220)) (binary32.ofInt 1)
      ≠ (((16777219 % (16777220 : Int)) * 1 : Int) : ℚ)
    rw [hx, hv]
    norm_num

/-- C1, amended: on a valid texture with at least one column and one row, for
an `int` `id ≥ 0`, a pose `IDLE` or `MOVE`, a frame index `≥ 0`, cell sizes
that are not negative and the four numbers `(curr_frame mod xCellCount) * cellW`,
`((id * END_POSE + pose) mod yCellCount) * cellH`, `cellW` and `cellH` at most
`2 ^ 24`, `SpriteDraw` issues one draw call whose source rectangle, in single
precision arithmetic, has exactly these four numbers as `x`, `y`, width and
height. -/
theorem SpriteDraw_source (s : Sprite ℚ) (position : Vector2 ℚ) (calls : List (DrawCall ℚ))
    (hid : s.af.tex.id ≠ 0)
    (hid0 : 0 ≤ s.id) (hidmax : s.id ≤ INT_MAX)
    (hpose : s.pose = SlimePose.IDLE ∨ s.pose = SlimePose.MOVE)
    (hcf : 0 ≤ s.curr_frame)
    (hx : 1 ≤ s.af.xCellCount) (hy : 1 ≤ s.af.yCellCount) (hymax : s.af.yCellCount ≤ INT_MAX)
    (hcw0 : 0 ≤ s.af.cellW) (hcw : s.af.cellW ≤ 16777216)
    (hch0 : 0 ≤ s.af.cellH) (hch : s.af.cellH ≤ 16777216)
    (hxv : (s.curr_frame % s.af.xCellCount) * s.af.cellW ≤ 16777216)
    (hyv : ((s.id * SlimePose.END_POSE.toInt + s.pose.toInt) % s.af.yCellCount) * s.af.cellH
      ≤ 16777216) :
    ∃ call, SpriteDraw binary32 s position calls = some (calls ++ [call]) ∧
      call.source
        = ⟨(((s.curr_frame % s.af.xCellCount) * s.af.cellW : Int) : ℚ),
            ((((s.id * SlimePose.END_POSE.toInt + s.pose.toInt) % s.af.yCellCount)
              * s.af.cellH : Int) : ℚ),
            (s.af.cellW : ℚ), (s.af.cellH : ℚ)⟩ := by
  refine ⟨_, SpriteDraw_valid binary32 s position calls hid (by omega) (by omega), ?_⟩
  have hrow := row_umod_eq s.id s.pose s.af.yCellCount hid0 hidmax hpose hy hymax
  have hcol : Int.tmod s.curr_frame s.af.xCellCount = s.curr_frame % s.af.xCellCount :=
    Int.tmod_eq_emod hcf (by omega)
  have hc0 : 0 ≤ s.curr_frame % s.af.xCellCount := Int.emod_nonneg _ (by omega)
  have hr0 : 0 ≤ (s.id * SlimePose.END_POSE.toInt + s.pose.toInt) % s.af.yCellCount :=
    Int.emod_nonneg _ (by omega)
  generalize s.curr_frame % s.af.xCellCount = col at hcol hc0 hxv
  generalize (s.id * SlimePose.END_POSE.toInt + s.pose.toInt) % s.af.yCellCount = row
    at hrow hr0 hyv
  have hoff : wrapUInt32 (row * wrapUInt32 s.af.cellH) = row * s.af.cellH :=
    row_offset_eq row s.af.cellH hr0 hch0 (by unfold INT_MAX; omega) (by unfold INT_MAX; omega)
  have hw : roundBinary32 (s.af.cellW : ℚ) = s.af.cellW := roundBinary32_intCast _ hcw0 hcw
  have hh : roundBinary32 (s.af.cellH : ℚ) = s.af.cellH := roundBinary32_intCast _ hch0 hch
  have hy' : roundBinary32 ((row * s.af.cellH : Int) : ℚ) = ((row * s.af.cellH : Int) : ℚ) :=
    roundBinary32_intCast _ (Int.mul_nonneg hr0 hch0) hyv
  have hx' : roundBinary32 (roundBinary32 (col : ℚ) * roundBinary32 (s.af.cellW : ℚ))
      = ((col * s.af.cellW : Int) : ℚ) := by
    rw [hw]
    rcases eq_or_lt_of_le hcw0 with h0 | hpos
    · rw [← h0]
      simp [roundBinary32]
    · have hcol_le : col ≤ 16777216 := by nlinarith
      rw [roundBinary32_intCast col hc0 hcol_le]
      have h := roundBinary32_intCast (col * s.af.cellW) (Int.mul_nonneg hc0 hcw0) hxv
      rw [← h]
      push_cast
      rfl
  show (⟨roundBinary32 (roundBinary32 ((Int.tmod s.curr_frame s.af.xCellCount : Int) : ℚ)
        * roundBinary32 (s.af.cellW : ℚ)),
      roundBinary32 ((wrapUInt32
        (wrapUInt32 (wrapUInt32 (wrapInt32 (s.id * 2)) + s.pose.toInt)
            % wrapUInt32 s.af.yCellCount
          * wrapUInt32 s.af.cellH) : Int) : ℚ),
      roundBinary32 (s.af.cellW : ℚ), roundBinary32 (s.af.cellH : ℚ)⟩ : Rectangle ℚ) = _
  rw [hcol, hrow, hoff, hx', hy', hw, hh]

/-- Witness of C1, amended: `id = 2`, pose `MOVE`, 14 rows of height 14, frame
5, 6 columns of width 12: the source rectangle is `(60, 70, 12, 14)`. -/
theorem SpriteDraw_source_witness :
    slimeAF.tex.id ≠ 0 ∧ (0 : Int) ≤ 2 ∧ (2 : Int) ≤ INT_MAX ∧
    (SlimePose.MOVE = SlimePose.IDLE ∨ SlimePose.MOVE = SlimePose.MOVE) ∧
    (0 : Int) ≤ 5 ∧ 1 ≤ slimeAF.xCellCount ∧ 1 ≤ slimeAF.yCellCount ∧
    slimeAF.yCellCount ≤ INT_MAX ∧
    0 ≤ slimeAF.cellW ∧ slimeAF.cellW ≤ 16777216 ∧
    0 ≤ slimeAF.cellH ∧ slimeAF.cellH ≤ 16777216 ∧
    (5 % slimeAF.xCellCount) * slimeAF.cellW ≤ 16777216 ∧
    ((2 * SlimePose.END_POSE.toInt + SlimePose.MOVE.toInt) % slimeAF.yCellCount)
      * slimeAF.cellH ≤ 16777216 ∧
    (∃ call, SpriteDraw binary32
        ⟨2, slimeAF, SlimePose.MOVE, 16, 5, 1 / 16, 0, true, true⟩ ⟨100, 200⟩ []
          = some ([] ++ [call]) ∧
      call.source = ⟨60, 70, 12, 14⟩) := by
  refine ⟨by decide, by decide, by decide, by decide, by decide, by decide, by decide,
    by decide, by decide, by decide, by decide, by decide, by decide, by decide, ?_⟩
  obtain ⟨call, h, hsrc⟩ := SpriteDraw_source
    ⟨2, slimeAF, SlimePose.MOVE, 16, 5, 1 / 16, 0, true, true⟩ ⟨100, 200⟩ []
    (by decide) (by decide) (by decide) (by decide) (by decide) (by decide) (by decide)
    (by decide) (by decide) (by decide) (by decide) (by decide) (by decide) (by decide)
  refine ⟨call, h, ?_⟩
  rw [hsrc]
  have hc : ((5 : Int) % 6) * 12 = 60 := by decide
  have hr : ((2 * SlimePose.END_POSE.toInt + SlimePose.MOVE.toInt) % 14) * 14 = (70 : Int) := by
    decide
  simp only [slimeAF, hc, hr]
  norm_num

/-- The source rectangle of `SpriteDraw`, in single precision arithmetic, lies
inside a region of `W x H` pixels that holds the whole grid, when `W` and `H`
are at most `2 ^ 24 + 3` and the cell sizes are `uint16_t` values. -/
theorem SpriteDraw_source_in_region (s : Sprite ℚ) (position : Vector2 ℚ)
    (calls : List (DrawCall ℚ)) (W H : Int) (hid : s.af.tex.id ≠ 0)
    (hid0 : 0 ≤ s.id) (hidmax : s.id ≤ INT_MAX)
    (hpose : s.pose = SlimePose.IDLE ∨ s.pose = SlimePose.MOVE)
    (hcf : 0 ≤ s.curr_frame)
    (hx : 1 ≤ s.af.xCellCount) (hy : 1 ≤ s.af.yCellCount)
    (hcw : 1 ≤ s.af.cellW) (hch : 1 ≤ s.af.cellH)
    (hcwmax : s.af.cellW ≤ 65535) (hchmax : s.af.cellH ≤ 65535)
    (hW : s.af.xCellCount * s.af.cellW ≤ W) (hH : s.af.yCellCount * s.af.cellH ≤ H)
    (hWmax : W ≤ 16777219) (hHmax : H ≤ 16777219) :
    ∃ call, SpriteDraw binary32 s position calls = some (calls ++ [call]) ∧
      0 ≤ call.source.x ∧ call.source.x + call.source.width ≤ (W : ℚ) ∧
      0 ≤ call.source.y ∧ call.source.y + call.source.height ≤ (H : ℚ) := by
  refine ⟨_, SpriteDraw_valid binary32 s position calls hid (by omega) (by omega), ?_⟩
  have hymax : s.af.yCellCount ≤ INT_MAX := by unfold INT_MAX; nlinarith
  have hrow := row_umod_eq s.id s.pose s.af.yCellCount hid0 hidmax hpose hy hymax
  have hcol : Int.tmod s.curr_frame s.af.xCellCount = s.curr_frame % s.af.xCellCount :=
    Int.tmod_eq_emod hcf (by omega)
  have hc0 : 0 ≤ s.curr_frame % s.af.xCellCount := Int.emod_nonneg _ (by omega)
  have hc1 : s.curr_frame % s.af.xCellCount < s.af.xCellCount :=
    Int.emod_lt_of_pos _ (by omega)
  have hr0 : 0 ≤ (s.id * SlimePose.END_POSE.toInt + s.pose.toInt) % s.af.yCellCount :=
    Int.emod_nonneg _ (by omega)
  have hr1 : (s.id * SlimePose.END_POSE.toInt + s.pose.toInt) % s.af.yCellCount
      < s.af.yCellCount := Int.emod_lt_of_pos _ (by omega)
  generalize s.curr_frame % s.af.xCellCount = col at hcol hc0 hc1
  generalize (s.id * SlimePose.END_POSE.toInt + s.pose.toInt) % s.af.yCellCount = row
    at hrow hr0 hr1
  have hxb : col * s.af.cellW + s.af.cellW ≤ W := by nlinarith
  have hyb : row * s.af.cellH + s.af.cellH ≤ H := by nlinarith
  have hcolmax : col ≤ 16777218 := by nlinarith
  have hoff : wrapUInt32 (row * wrapUInt32 s.af.cellH) = row * s.af.cellH :=
    row_offset_eq row s.af.cellH hr0 (by omega) (by unfold INT_MAX; omega)
      (by unfold INT_MAX; omega)
  have hw : roundBinary32 (s.af.cellW : ℚ) = s.af.cellW :=
    roundBinary32_intCast _ (by omega) (by omega)
  have hh : roundBinary32 (s.af.cellH : ℚ) = s.af.cellH :=
    roundBinary32_intCast _ (by omega) (by omega)
  obtain ⟨c, hc, hc0', hcle⟩ := roundBinary32_le col hc0 hcolmax
  have hprod : c * s.af.cellW ≤ col * s.af.cellW :=
    Int.mul_le_mul_of_nonneg_right hcle (by omega)
  obtain ⟨m, hm, hm0, hmle⟩ := roundBinary32_le (c * s.af.cellW)
    (Int.mul_nonneg hc0' (by omega)) (by omega)
  obtain ⟨n, hn, hn0, hnle⟩ := roundBinary32_le (row * s.af.cellH)
    (Int.mul_nonneg hr0 (by omega)) (by omega)
  have hx' : roundBinary32 (roundBinary32 (col : ℚ) * roundBinary32 (s.af.cellW : ℚ))
      = (m : ℚ) := by
    rw [hw, hc, ← hm]
    push_cast
    rfl
  show (0 : ℚ) ≤ roundBinary32 (roundBinary32 ((Int.tmod s.curr_frame s.af.xCellCount : Int) : ℚ)
        * roundBinary32 (s.af.cellW : ℚ)) ∧
    roundBinary32 (roundBinary32 ((Int.tmod s.curr_frame s.af.xCellCount : Int) : ℚ)
        * roundBinary32 (s.af.cellW : ℚ)) + roundBinary32 (s.af.cellW : ℚ) ≤ (W : ℚ) ∧
    (0 : ℚ) ≤ roundBinary32 ((wrapUInt32
        (wrapUInt32 (wrapUInt32 (wrapInt32 (s.id * 2)) + s.pose.toInt)
            % wrapUInt32 s.af.yCellCount
          * wrapUInt32 s.af.cellH) : Int) : ℚ) ∧
    roundBinary32 ((wrapUInt32
        (wrapUInt32 (wrapUInt32 (wrapInt32 (s.id * 2)) + s.pose.toInt)
            % wrapUInt32 s.af.yCellCount
          * wrapUInt32 s.af.cellH) : Int) : ℚ) + roundBinary32 (s.af.cellH : ℚ) ≤ (H : ℚ)
  rw [hcol, hrow, hoff, hx', hn, hw, hh]
  refine ⟨?_, ?_, ?_, ?_⟩
  · exact_mod_cast hm0
  · have : m + s.af.cellW ≤ W := by omega
    exact_mod_cast this
  · exact_mod_cast hn0
  · have : n + s.af.cellH ≤ H := by omega
    exact_mod_cast this

/-- C10, as stated, fails.  On the 16777220 x 1 cells of 1 x 14 pixels that
`AnimFrameLoad` returns for a texture of 16777220 x 14 pixels, a sprite at
frame 16777219 is drawn from `x = (float) 16777219 = 16777220`, so that the
source rectangle, one pixel wide, ends at 16777221, beyond the texture width.
On the 1 x 16777220 cells of 14 x 1 pixels of a texture of 14 x 16777220
pixels, the sprite with `id = 8388609` and pose `MOVE` is drawn from row
16777219, that is from `y = 16777220`, and the rectangle ends beyond the
texture height. -/
theorem SpriteDraw_in_texture_counterexample :
    ((wideLoader "img/slime.png").id ≠ 0 ∧
      0 < (1 : Fin 65536).val ∧ 0 < (14 : Fin 65536).val ∧
      ((1 : Fin 65536).val : Int) ≤ (wideLoader "img/slime.png").width ∧
      ((14 : Fin 65536).val : Int) ≤ (wideLoader "img/slime.png").height ∧
      ∃ call,
        SpriteDraw binary32
            (SpriteLoad ⟨0, slimeAF, SlimePose.IDLE, 16, 16777219, 1 / 16, 0, true, true⟩
              (AnimFrameLoad wideLoader "img/slime.png" 1 14))
            ⟨100, 200⟩ [] = some ([] ++ [call]) ∧
        call.source.x = 16777220 ∧ call.source.width = 1 ∧
        ¬ (call.source.x + call.source.width ≤ ((wideLoader "img/slime.png").width : ℚ))) ∧
    ((tallLoader "img/slime.png").id ≠ 0 ∧
      0 < (14 : Fin 65536).val ∧ 0 < (1 : Fin 65536).val ∧
      ((14 : Fin 65536).val : Int) ≤ (tallLoader "img/slime.png").width ∧
      ((1 : Fin 65536).val : Int) ≤ (tallLoader "img/slime.png").height ∧
      ∃ call,
        SpriteDraw binary32
            (SpriteLoad ⟨8388609, slimeAF, SlimePose.MOVE, 16, 0, 1 / 16, 0, true, true⟩
              (AnimFrameLoad tallLoader "img/slime.png" 14 1))
            ⟨100, 200⟩ [] = some ([] ++ [call]) ∧
        call.source.y = 16777220 ∧ call.source.height = 1 ∧
        ¬ (call.source.y + call.source.height ≤ ((tallLoader "img/slime.png").height : ℚ))) := by
  have hwide : AnimFrameLoad wideLoader "img/slime.png" 1 14
      = ⟨wideTexture, 1, 14, 0, 7, 16777220, 1⟩ := by decide
  have htall : AnimFrameLoad tallLoader "img/slime.png" 14 1
      = ⟨tallTexture, 14, 1, 7, 0, 1, 16777220⟩ := by decide
  have h19 : roundBinary32 ((16777219 : Int) : ℚ) = 16777220 := by
    exact_mod_cast roundBinary32_16777219
  have h1 : roundBinary32 ((1 : Int) : ℚ) = 1 := by
    exact_mod_cast roundBinary32_intCast 1 (by norm_num) (by norm_num)
  have h20 : roundBinary32 (16777220 * 1) = 16777220 := by
    have h := roundBinary32_even 16777220 (by norm_num) (by norm_num) 8388610 (by norm_num)
    rw [mul_one]
    exact_mod_cast h
  have hx : binary32.mul (binary32.ofInt (Int.tmod 16777219 16777220)) (binary32.ofInt 1)
      = 16777220 := by
    have ht : Int.tmod 16777219 16777220 = 16777219 := by decide
    show roundBinary32 (roundBinary32 ((Int.tmod 16777219 16777220 : Int) : ℚ)
      * roundBinary32 ((1 : Int) : ℚ)) = 16777220
    rw [ht, h19, h1, h20]
  have hy : binary32.ofInt (wrapUInt32
      (wrapUInt32 (wrapUInt32 (wrapInt32 (8388609 * 2)) + SlimePose.MOVE.toInt)
          % wrapUInt32 16777220 * wrapUInt32 1)) = 16777220 := by
    have hr : wrapUInt32
        (wrapUInt32 (wrapUInt32 (wrapInt32 (8388609 * 2)) + SlimePose.MOVE.toInt)
          % wrapUInt32 16777220 * wrapUInt32 1) = 16777219 := by decide
    rw [hr]
    exact h19
  have hone : binary32.ofInt 1 = 1 := h1
  constructor
  · refine ⟨by decide, by decide, by decide, by decide, by decide, _,
      SpriteDraw_valid binary32 _ _ _ (by decide) (by decide) (by decide), ?_, ?_, ?_⟩
    · simp only [SpriteLoad, hwide]
      exact hx
    · simp only [SpriteLoad, hwide]
      exact hone
    · simp only [SpriteLoad, hwide]
      rw [hx, hone]
      norm_num [wideLoader, wideTexture]
  · refine ⟨by decide, by decide, by decide, by decide, by decide, _,
      SpriteDraw_valid binary32 _ _ _ (by decide) (by decide) (by decide), ?_, ?_, ?_⟩
    · simp only [SpriteLoad, htall]
      exact hy
    · simp only [SpriteLoad, htall]
      exact hone
    · simp only [SpriteLoad, htall]
      rw [hy, hone]
      norm_num [tallLoader, tallTexture]

/-- C10, amended: for the `AnimFrame` that `AnimFrameLoad` returns for a
successfully loaded texture at least as large as the non-zero cell size and
at most 16777219 pixels wide and high, and a sprite bound to it with an `int`
`id ≥ 0`, a pose `IDLE` or `MOVE` and a frame index `≥ 0`, both divisors of
`%` in `SpriteDraw` are non-zero and the source rectangle of its draw call,
in single precision arithmetic, lies inside the texture. -/
theorem SpriteDraw_in_texture (LoadTexture : String → Texture2D) (fname : String)
    (cell_width cell_height : Fin 65536) (s : Sprite ℚ) (position : Vector2 ℚ)
    (calls : List (DrawCall ℚ))
    (hload : (LoadTexture fname).id ≠ 0)
    (hcw : 0 < cell_width.val) (hch : 0 < cell_height.val)
    (hw : (cell_width.val : Int) ≤ (LoadTexture fname).width)
    (hh : (cell_height.val : Int) ≤ (LoadTexture fname).height)
    (hwmax : (LoadTexture fname).width ≤ 16777219)
    (hhmax : (LoadTexture fname).height ≤ 16777219)
    (hid0 : 0 ≤ s.id) (hidmax : s.id ≤ INT_MAX)
    (hpose : s.pose = SlimePose.IDLE ∨ s.pose = SlimePose.MOVE)
    (hcf : 0 ≤ s.curr_frame) :
    (AnimFrameLoad LoadTexture fname cell_width cell_height).xCellCount ≠ 0 ∧
    (AnimFrameLoad LoadTexture fname cell_width cell_height).yCellCount ≠ 0 ∧
    ∃ call,
      SpriteDraw binary32
          (SpriteLoad s (AnimFrameLoad LoadTexture fname cell_width cell_height))
          position calls = some (calls ++ [call]) ∧
      0 ≤ call.source.x ∧
      call.source.x + call.source.width ≤ ((LoadTexture fname).width : ℚ) ∧
      0 ≤ call.source.y ∧
      call.source.y + call.source.height ≤ ((LoadTexture fname).height : ℚ) := by
  have e := AnimFrameLoad_of_valid LoadTexture fname cell_width cell_height hload hcw hch
    (by omega) (by omega)
  have hx : 1 ≤ (LoadTexture fname).width / (cell_width.val : Int) :=
    Int.le_ediv_of_mul_le (by omega) (by omega)
  have hy : 1 ≤ (LoadTexture fname).height / (cell_height.val : Int) :=
    Int.le_ediv_of_mul_le (by omega) (by omega)
  have hxw : (LoadTexture fname).width / (cell_width.val : Int) * (cell_width.val : Int)
      ≤ (LoadTexture fname).width := Int.ediv_mul_le _ (by omega)
  have hyh : (LoadTexture fname).height / (cell_height.val : Int) * (cell_height.val : Int)
      ≤ (LoadTexture fname).height := Int.ediv_mul_le _ (by omega)
  rw [e]
  refine ⟨by show (LoadTexture fname).width / (cell_width.val : Int) ≠ 0; omega,
    by show (LoadTexture fname).height / (cell_height.val : Int) ≠ 0; omega, ?_⟩
  exact SpriteDraw_source_in_region _ position calls _ _ hload hid0 hidmax hpose hcf hx hy
    (by show (1 : Int) ≤ (cell_width.val : Int); omega)
    (by show (1 : Int) ≤ (cell_height.val : Int); omega)
    (by show (cell_width.val : Int) ≤ 65535; omega)
    (by show (cell_height.val : Int) ≤ 65535; omega) hxw hyh hwmax hhmax

/-- Witness of C10, amended: the 72 x 196 texture with 12 x 14 cells and the
sprite with `id = 13`, pose `MOVE`, at frame 5. -/
theorem SpriteDraw_in_texture_witness :
    (slimeLoader "img/slime.png").id ≠ 0 ∧
    0 < (12 : Fin 65536).val ∧ 0 < (14 : Fin 65536).val ∧
    ((12 : Fin 65536).val : Int) ≤ (slimeLoader "img/slime.png").width ∧
    ((14 : Fin 65536).val : Int) ≤ (slimeLoader "img/slime.png").height ∧
    (slimeLoader "img/slime.png").width ≤ 16777219 ∧
    (slimeLoader "img/slime.png").height ≤ 16777219 ∧
    (0 : Int) ≤ 13 ∧ (13 : Int) ≤ INT_MAX ∧
    (SlimePose.MOVE = SlimePose.IDLE ∨ SlimePose.MOVE = SlimePose.MOVE) ∧ (0 : Int) ≤ 5 ∧
    (AnimFrameLoad slimeLoader "img/slime.png" 12 14).xCellCount ≠ 0 ∧
    (AnimFrameLoad slimeLoader "img/slime.png" 12 14).yCellCount ≠ 0 ∧
    ∃ call,
      SpriteDraw binary32
          (SpriteLoad ⟨13, slimeAF, SlimePose.MOVE, 16, 5, 1 / 16, 0, true, true⟩
            (AnimFrameLoad slimeLoader "img/slime.png" 12 14))
          ⟨100, 200⟩ [] = some ([] ++ [call]) ∧
      0 ≤ call.source.x ∧
      call.source.x + call.source.width ≤ ((slimeLoader "img/slime.png").width : ℚ) ∧
      0 ≤ call.source.y ∧
      call.source.y + call.source.height ≤ ((slimeLoader "img/slime.png").height : ℚ) :=
  ⟨by decide, by decide, by decide, by decide, by decide, by decide, by decide, by decide,
    by decide, by decide, by decide,
    SpriteDraw_in_texture slimeLoader "img/slime.png" 12 14
      ⟨13, slimeAF, SlimePose.MOVE, 16, 5, 1 / 16, 0, true, true⟩ ⟨100, 200⟩ []
      (by decide) (by decide) (by decide) (by decide) (by decide) (by decide) (by decide)
      (by decide) (by decide) (by decide) (by decide)⟩

end Spr1
